import Mathlib

/-!
Verification of the LLM-as-judge orchestration layer of the `langcheck`
repository, as a shallow embedding in Lean 4.

Embedding conventions:
* Python `float` scores are modelled as `ℚ` (the scores produced by the code
  are the exact dyadic values 0.0, 0.5, 1.0, exactly representable in `ℚ`).
* The remote judge (the OpenAI chat-completion call) is an external
  collaborator; it is modelled as a function parameter (`judge`, `api`)
  mapping the rendered prompt (resp. request) to the verdict the remote
  model returned.
* A Python function that raises an exception is modelled as returning
  `Except EvalError α`; an uncaught exception propagating out of the batch
  loop is the `.error` case, which carries no partial results.
* `pairwise_comparison` prints its accumulated `score_list` and
  `explanation_list` at the end (and returns `None`); the pair of lists it
  accumulates and emits is modelled as the function's output.
* The local discriminative classifier is an external collaborator; the
  per-class probability rows it produces are a parameter
  (`List (ℚ × ℚ × ℚ)`, the `[negative, neutral, positive]` columns).
-/

/-- The error taxonomy of the design (§7): only the conditions exercised by
the embedded code paths are represented. `configurationError` is the
`assert model_type in [...]` failure; `unrecognizedAssessment` is a decoded
label outside the active assessment schema. -/
inductive EvalError where
  | configurationError : String → EvalError
  | unrecognizedAssessment : String → EvalError
deriving Repr, DecidableEq

/-- The parsed output of one remote judge call: the categorical label and the
free-text explanation. -/
structure JudgeVerdict where
  label : String
  raw_explanation : String
deriving Repr, DecidableEq

/-- A single-quote character as a string (used inside prompt templates). -/
def apos : String := String.singleton (Char.ofNat 39)

/-- Shared batch loop shape: score items one by one in order, appending each
result; the first raised error aborts the whole loop and discards the
accumulated results (an uncaught Python exception). Both
`pairwise_comparison`'s loop over `data_iter` and `_sentiment_openai`'s loop
over `generated_outputs` have exactly this shape. -/
def runJudged (score : α → Except EvalError β) : List α → Except EvalError (List β)
  | [] => .ok []
  | x :: xs =>
    match score x with
    | .error e => .error e
    | .ok r =>
      match runJudged score xs with
      | .error e => .error e
      | .ok rest => .ok (r :: rest)

/-- Python `zip` over three sequences: truncates to the shortest. -/
def zip3 : List α → List β → List γ → List (α × β × γ)
  | a :: as, b :: bs, c :: cs => (a, b, c) :: zip3 as bs cs
  | _, _, _ => []

/-- Python `zip` over four sequences: truncates to the shortest. -/
def zip4 : List α → List β → List γ → List δ → List (α × β × γ × δ)
  | a :: as, b :: bs, c :: cs, d :: ds => (a, b, c, d) :: zip4 as bs cs ds
  | _, _, _, _ => []

/-- Python `zip` over five sequences: truncates to the shortest. -/
def zip5 : List α → List β → List γ → List δ → List ε →
    List (α × β × γ × δ × ε)
  | a :: as, b :: bs, c :: cs, d :: ds, e :: es =>
    (a, b, c, d, e) :: zip5 as bs cs ds es
  | _, _, _, _, _ => []

namespace PairwiseTextQuality

/-- The plain pairwise judgment prompt (`_prompt` in
`langcheck/metrics/en/pairwise_text_quality.py`). -/
def _prompt (gen_output_a gen_output_b user_query : String) : String :=
  "\n        You are comparing the quality of two responses to a user" ++ apos ++
  "s query. Here\n        is the data:\n        [BEGIN DATA]\n        ************\n        [User Query]: " ++
  user_query ++
  "\n        ************\n        [Response A]: " ++
  gen_output_a ++
  "\n        ************\n        [Response B]: " ++
  gen_output_b ++
  "\n        ************\n        [END DATA]\n\n        Determine which of the responses is a better response to the user" ++
  apos ++
  "s\n        query. Consider factors such as helpfulness, correctness, and relevance\n        in your assessment. Do not allow the order in which the responses were\n        presented to influence your assessment. Do not allow the length of the\n        responses to influence your assessment. The available assessments are:\n        `Response A` - Response A is a better response.\n        `Response B` - Response B is a better response.\n        `Tie` - The two responses are roughly equal in quality.\n\n        Take a deep breath and work on this problem step-by-step.\n        "

/-- The reference-augmented pairwise judgment prompt (`_prompt_with_reference`). -/
def _prompt_with_reference (gen_output_a gen_output_b user_query ref_output :
    String) : String :=
  "\n        You are comparing the quality of two responses to a user" ++ apos ++
  "s query. The\n        ideal response to the user" ++ apos ++
  "s query is also provided to you as a\n        reference. Here is the data:\n        [BEGIN DATA]\n        ************\n        [Ideal Response]: " ++
  ref_output ++
  "\n        ************\n        [User Query]: " ++
  user_query ++
  "\n        ************\n        [Response A]: " ++
  gen_output_a ++
  "\n        ************\n        [Response B]: " ++
  gen_output_b ++
  "\n        ************\n        [END DATA]\n\n        Determine which of the responses is a better response to the user" ++
  apos ++
  "s\n        query. Consider factors such as helpfulness, correctness, and relevance\n        in your assessment, using the provided Ideal Response as a reference. Do\n        not allow the order in which the responses were presented to influence\n        your assessment. Do not allow the length of the responses to influence\n        your assessment. The available assessments are:\n        `Response A` - Response A is a better response.\n        `Response B` - Response B is a better response.\n        `Tie` - The two responses are roughly equal in quality.\n\n        Take a deep breath and work on this problem step-by-step.\n        "

/-- The source-grounded pairwise judgment prompt (`_prompt_with_sources`).
If two sources are provided they are combined into a single string with a
line break; otherwise the single source is used as-is. -/
def _prompt_with_sources (gen_output_a gen_output_b user_query source_1 :
    String) (source_2 : Option String) : String :=
  let sources : String :=
    match source_2 with
    | some s2 => source_1 ++ "\n" ++ s2
    | none => source_1
  "\n        You are comparing the quality of two responses to a user" ++ apos ++
  "s query. Source\n        text that is supposedly relevant to the user" ++ apos ++
  "s query is also provided\n        to you as a reference (the source text may contain some duplication).\n        Here is the data:\n        [BEGIN DATA]\n        ************\n        [User Query]: " ++
  user_query ++
  "\n        ************\n        [Source]: " ++
  sources ++
  "\n        ************\n        [Response A]: " ++
  gen_output_a ++
  "\n        ************\n        [Response B]: " ++
  gen_output_b ++
  "\n        ************\n        [END DATA]\n\n        Determine which of the responses is a better response to the user" ++
  apos ++
  "s\n        query. Consider factors such as helpfulness, correctness, and relevance\n        in your assessment, using the provided Source as a reference. Do not\n        allow the order in which the responses were presented to influence your\n        assessment. Do not allow the length of the responses to influence your\n        assessment. The available assessments are:\n        `Response A` - Response A is a better response.\n        `Response B` - Response B is a better response.\n        `Tie` - The two responses are roughly equal in quality.\n\n        Take a deep breath and work on this problem step-by-step.\n        "

/-- The pairwise assessment-to-score mapping literal
(`pairwise_comparison_assessment_to_score`, lines 138–142 of
`pairwise_text_quality.py`), as an association list. -/
def pairwise_comparison_assessment_to_score : List (String × ℚ) :=
  [("Response B", 1), ("Tie", 1/2), ("Response A", 0)]

/-- Modelled from the spec: `OpenAIBasedEvaluator.get_score` is imported from
`langcheck.metrics.en._openai`, which is not part of the source tree. Per
§4.3–§4.4 and §7 of the design, the judge call returns a `JudgeVerdict`
(categorical label plus free-text explanation); the scorer converts the label
through the assessment-to-score mapping, and a label outside the mapping
raises `UnrecognizedAssessment` instead of being coerced to a default score.
The remote call itself is the `verdict` argument, produced by the abstract
judge. -/
def get_score (mapping : List (String × ℚ)) (verdict : JudgeVerdict) :
    Except EvalError (ℚ × String) :=
  match List.lookup verdict.label mapping with
  | some s => .ok (s, verdict.raw_explanation)
  | none => .error (.unrecognizedAssessment verdict.label)

/-- The prompt rendered for each item of the batch, following the
branch structure at lines 155–174 of `pairwise_text_quality.py`: sources
take precedence (with `sources_b` alone, `sources_a` alone, or both zipped
in), then `reference_outputs`, then the plain template; each branch zips the
aligned sequences (truncating to the shortest, as Python `zip` does). -/
def renderedPrompts (generated_outputs_a generated_outputs_b prompts :
    List String) (sources_a sources_b reference_outputs :
    Option (List String)) : List String :=
  match sources_a, sources_b with
  | none, some sb =>
    (zip4 generated_outputs_a generated_outputs_b prompts sb).map
      (fun t => _prompt_with_sources t.1 t.2.1 t.2.2.1 t.2.2.2 none)
  | some sa, none =>
    (zip4 generated_outputs_a generated_outputs_b prompts sa).map
      (fun t => _prompt_with_sources t.1 t.2.1 t.2.2.1 t.2.2.2 none)
  | some sa, some sb =>
    (zip5 generated_outputs_a generated_outputs_b prompts sa sb).map
      (fun t => _prompt_with_sources t.1 t.2.1 t.2.2.1 t.2.2.2.1
        (some t.2.2.2.2))
  | none, none =>
    match reference_outputs with
    | some ref =>
      (zip4 generated_outputs_a generated_outputs_b prompts ref).map
        (fun t => _prompt_with_reference t.1 t.2.1 t.2.2.1 t.2.2.2)
    | none =>
      (zip3 generated_outputs_a generated_outputs_b prompts).map
        (fun t => _prompt t.1 t.2.1 t.2.2)

/-- The orchestrator (`pairwise_comparison`): checks the provider variant,
renders one judgment prompt per aligned tuple, scores each through the
judge, and emits the accumulated score/explanation pairs (the lists the
Python function prints at the end). The judge, the connection handle, and
the pass-through invocation parameters live behind the abstract `judge`
function, since the remote client (`OpenAIBasedEvaluator`) is an external
collaborator whose code is not in the source tree. -/
def pairwise_comparison (judge : String → JudgeVerdict)
    (generated_outputs_a generated_outputs_b prompts : List String)
    (sources_a sources_b reference_outputs : Option (List String))
    (model_type : String) : Except EvalError (List (ℚ × String)) :=
  if model_type = "openai" ∨ model_type = "azure_openai" then
    runJudged
      (fun pr => get_score pairwise_comparison_assessment_to_score (judge pr))
      (renderedPrompts generated_outputs_a generated_outputs_b prompts
        sources_a sources_b reference_outputs)
  else
    .error (.configurationError
      "Unsupported model type. The supported ones are [\"openai\", \"azure_openai\"]")

/-- The `total` argument handed to the progress bar by the per-item loop
(`tqdm_wrapper(..., total=len(prompts))`, line 178 of the source): always the
length of `prompts`, regardless of how many items the zipped iterator
actually yields. -/
def progress_total (prompts : List String) : ℕ := prompts.length

end PairwiseTextQuality

namespace ReferenceFreeTextQuality

/-- The result object built by the metric functions
(`langcheck.eval.eval_value.EvalValue`), with the fields `sentiment`
populates. -/
structure EvalValue where
  metric_name : String
  prompts : Option (List String)
  generated_outputs : List String
  reference_outputs : Option (List String)
  sources : Option (List String)
  metric_values : List ℚ
  language : String
deriving Repr, DecidableEq

/-- The sentiment judgment prompt (`_prompt` nested in `_sentiment_openai`,
`langcheck/eval/en/reference_free_text_quality.py`). -/
def _prompt (gen_output : String) : String :=
  "\n        You are evaluating the sentiment of a submitted statement. Here is the\n        data:\n        [BEGIN DATA]\n        ************\n        [Submission]: " ++
  gen_output ++
  "\n        ************\n        [END DATA]\n\n        Determine the predominant sentiment of the submitted statement. The\n        available assessments are:\n        `Positive` - The submitted statement has a predominantly positive\n        sentiment\n        `Negative` - The submitted statement has a predominantly negative\n        sentiment\n        `Neutral` - The submitted statement has neither a positive nor negative\n        sentiment\n        "

/-- Conversion `_sentiment_assessment_to_score`: converts the extracted assessment label
to a score; any other label raises (`AssertionError` in the source, the
`UnrecognizedAssessment` condition of the design taxonomy). -/
def _sentiment_assessment_to_score (assessment : String) :
    Except EvalError ℚ :=
  if assessment = "Positive" then .ok 1
  else if assessment = "Neutral" then .ok (1/2)
  else if assessment = "Negative" then .ok 0
  else .error (.unrecognizedAssessment assessment)

/-- The keyword arguments of one `openai.ChatCompletion.create` call as built
by `_sentiment_openai`: the message list, the enum constraining the function
schema's single argument, the forced function-call name, the explicit
`model=` keyword (present only on the default path), and the `**openai_args`
expansion (empty on the default path, the caller's mapping verbatim
otherwise). -/
structure ChatCompletionRequest where
  messages : List (String × String)
  functions_enum : List String
  function_call : String
  model_kwarg : Option String
  extra_kwargs : List (String × String)
deriving Repr, DecidableEq

/-- The request `_sentiment_openai` issues for one generated output (lines
152–185 of the source): when `openai_args` is `None` the call passes
`model="gpt-3.5-turbo"` explicitly; otherwise it passes `**openai_args`
verbatim and no explicit model keyword. -/
def sentimentRequest (gen : String)
    (openai_args : Option (List (String × String))) : ChatCompletionRequest :=
  match openai_args with
  | none =>
    { messages := [("user", _prompt gen)]
      functions_enum := ["Positive", "Negative", "Neutral"]
      function_call := "save_sentiment_assessment"
      model_kwarg := some "gpt-3.5-turbo"
      extra_kwargs := [] }
  | some args =>
    { messages := [("user", _prompt gen)]
      functions_enum := ["Positive", "Negative", "Neutral"]
      function_call := "save_sentiment_assessment"
      model_kwarg := none
      extra_kwargs := args }

/-- The sequence of remote requests `_sentiment_openai` issues for a batch,
one per generated output, in order. -/
def _sentiment_requests (generated_outputs : List String)
    (openai_args : Option (List (String × String))) :
    List ChatCompletionRequest :=
  generated_outputs.map (fun gen => sentimentRequest gen openai_args)

/-- Batch scorer `_sentiment_openai`: issues one request per generated output, extracts
the returned sentiment label (the `api` parameter models the remote call
plus the function-call argument extraction), converts it to a score, and
accumulates the scores in order; an unrecognized label aborts the batch. -/
def _sentiment_openai (api : ChatCompletionRequest → String)
    (generated_outputs : List String)
    (openai_args : Option (List (String × String))) :
    Except EvalError (List ℚ) :=
  runJudged (fun r => _sentiment_assessment_to_score (api r))
    (_sentiment_requests generated_outputs openai_args)

/-- Local scorer `_sentiment_local`: the external classifier (tokenizer + model + softmax)
yields one probability row `[negative, neutral, positive]` per output; the
score is the fixed combination `probs[:, 1] / 2 + probs[:, 2]` (line 95 of
the source). -/
def _sentiment_local (classifier : List String → List (ℚ × ℚ × ℚ))
    (generated_outputs : List String) : List ℚ :=
  (classifier generated_outputs).map (fun p => p.2.1 / 2 + p.2.2)

/-- The `sentiment` metric entry point: checks the provider variant
(`local` or `openai`), computes the scores along the selected path, and
wraps them in an `EvalValue`. -/
def sentiment (classifier : List String → List (ℚ × ℚ × ℚ))
    (api : ChatCompletionRequest → String) (generated_outputs : List String)
    (prompts : Option (List String)) (model_type : String)
    (openai_args : Option (List (String × String))) :
    Except EvalError EvalValue :=
  if model_type = "local" ∨ model_type = "openai" then
    match (if model_type = "local" then
        .ok (_sentiment_local classifier generated_outputs)
      else
        _sentiment_openai api generated_outputs openai_args) with
    | .error e => .error e
    | .ok scores =>
      .ok { metric_name := "sentiment"
            prompts := prompts
            generated_outputs := generated_outputs
            reference_outputs := none
            sources := none
            metric_values := scores
            language := "en" }
  else
    .error (.configurationError
      "Unsupported model type. The supported ones are [\"local\", \"openai\"]")

end ReferenceFreeTextQuality

theorem strAppendAssoc (a b c : String) : a ++ b ++ c = a ++ (b ++ c) :=
  String.ext (by simp)

theorem runJudged_map_of_ok {α β : Type} (g : α → Except EvalError β)
    (f : α → β) (xs : List α) (h : ∀ x ∈ xs, g x = .ok (f x)) :
    runJudged g xs = .ok (xs.map f) := by
  induction xs with
  | nil => rfl
  | cons x xs ih =>
    have hx := h x (List.mem_cons_self x xs)
    have ht := ih (fun y hy => h y (List.mem_cons_of_mem _ hy))
    simp [runJudged, hx, ht]

theorem runJudged_forall2 {α β : Type} (g : α → Except EvalError β) :
    ∀ (xs : List α) (rs : List β), runJudged g xs = .ok rs →
      List.Forall₂ (fun x r => g x = .ok r) xs rs := by
  intro xs
  induction xs with
  | nil =>
    intro rs h
    simp only [runJudged, Except.ok.injEq] at h
    subst h
    exact List.Forall₂.nil
  | cons x xs ih =>
    intro rs h
    cases hx : g x with
    | error e => simp [runJudged, hx] at h
    | ok r =>
      cases ht : runJudged g xs with
      | error e => simp [runJudged, hx, ht] at h
      | ok rest =>
        simp only [runJudged, hx, ht, Except.ok.injEq] at h
        subst h
        exact List.Forall₂.cons hx (ih rest ht)

theorem runJudged_error_of_mem {α β : Type} (g : α → Except EvalError β)
    (x₀ : α) (e₀ : EvalError) (xs : List α) (hmem : x₀ ∈ xs)
    (he : g x₀ = .error e₀) :
    ∃ e, runJudged g xs = .error e ∧ ∃ y ∈ xs, g y = .error e := by
  induction xs with
  | nil => cases hmem
  | cons x xs ih =>
    cases hx : g x with
    | error e =>
      exact ⟨e, by simp [runJudged, hx], x, List.mem_cons_self x xs, hx⟩
    | ok r =>
      have hx₀ : x₀ ∈ xs := by
        rcases List.mem_cons.mp hmem with h | h
        · subst h; simp [hx] at he
        · exact h
      obtain ⟨e, hrun, y, hy, hgy⟩ := ih hx₀
      exact ⟨e, by simp [runJudged, hx, hrun], y, List.mem_cons_of_mem _ hy,
        hgy⟩

theorem zip3_length {α β γ : Type} (a : List α) (b : List β) (c : List γ) :
    (zip3 a b c).length = min a.length (min b.length c.length) := by
  induction a generalizing b c with
  | nil => simp [zip3]
  | cons x xs ih =>
    cases b with
    | nil => simp [zip3]
    | cons y ys =>
      cases c with
      | nil => simp [zip3]
      | cons z zs =>
        simp [zip3, ih]
        omega

theorem get_score_ok (m : List (String × ℚ)) (v : JudgeVerdict) (s : ℚ)
    (h : List.lookup v.label m = some s) :
    PairwiseTextQuality.get_score m v = .ok (s, v.raw_explanation) := by
  simp [PairwiseTextQuality.get_score, h]

theorem get_score_error_shape (m : List (String × ℚ)) (v : JudgeVerdict)
    (e : EvalError) (h : PairwiseTextQuality.get_score m v = .error e) :
    e = .unrecognizedAssessment v.label ∧ List.lookup v.label m = none := by
  cases hl : List.lookup v.label m with
  | none =>
    simp [PairwiseTextQuality.get_score, hl] at h
    exact ⟨h.symm, rfl⟩
  | some s => simp [PairwiseTextQuality.get_score, hl] at h

theorem sentiment_score_error_shape (s : String) (e : EvalError)
    (h : ReferenceFreeTextQuality._sentiment_assessment_to_score s = .error e) :
    e = .unrecognizedAssessment s ∧ s ≠ "Positive" ∧ s ≠ "Neutral" ∧
      s ≠ "Negative" := by
  by_cases h1 : s = "Positive"
  · simp [ReferenceFreeTextQuality._sentiment_assessment_to_score, h1] at h
  · by_cases h2 : s = "Neutral"
    · simp [ReferenceFreeTextQuality._sentiment_assessment_to_score, h1,
        h2] at h
    · by_cases h3 : s = "Negative"
      · simp [ReferenceFreeTextQuality._sentiment_assessment_to_score, h1,
          h2, h3] at h
      · simp [ReferenceFreeTextQuality._sentiment_assessment_to_score, h1,
          h2, h3] at h
        exact ⟨h.symm, h1, h2, h3⟩

/-- Claim C1: the pairwise assessment-to-score mapping is total over exactly
the three pairwise labels: `Response A` maps to 0.0, `Tie` to 0.5,
`Response B` to 1.0, and no label outside this set has a score in the
mapping. -/
theorem pairwise_assessment_score_mapping_total :
    List.lookup "Response A"
        PairwiseTextQuality.pairwise_comparison_assessment_to_score =
      some 0 ∧
    List.lookup "Tie"
        PairwiseTextQuality.pairwise_comparison_assessment_to_score =
      some (1/2) ∧
    List.lookup "Response B"
        PairwiseTextQuality.pairwise_comparison_assessment_to_score =
      some 1 ∧
    ∀ l : String, l ≠ "Response A" → l ≠ "Tie" → l ≠ "Response B" →
      List.lookup l
          PairwiseTextQuality.pairwise_comparison_assessment_to_score =
        none := by
  refine ⟨by simp [PairwiseTextQuality.pairwise_comparison_assessment_to_score,
      List.lookup],
    by simp [PairwiseTextQuality.pairwise_comparison_assessment_to_score,
      List.lookup],
    by simp [PairwiseTextQuality.pairwise_comparison_assessment_to_score,
      List.lookup], ?_⟩
  intro l h1 h2 h3
  have e1 : (l == "Response B") = false := beq_eq_false_iff_ne.mpr h3
  have e2 : (l == "Tie") = false := beq_eq_false_iff_ne.mpr h2
  have e3 : (l == "Response A") = false := beq_eq_false_iff_ne.mpr h1
  simp [PairwiseTextQuality.pairwise_comparison_assessment_to_score,
    List.lookup, e1, e2, e3]

theorem pairwise_assessment_score_mapping_total_witness :
    List.lookup "Positive"
        PairwiseTextQuality.pairwise_comparison_assessment_to_score =
      none :=
  pairwise_assessment_score_mapping_total.2.2.2 "Positive" (by decide)
    (by decide) (by decide)

/-- Claim C6: for every pair of supplied source strings, the rendered
source-grounded judgment prompt embeds both sources with `source_2`
concatenated after `source_1`, separated by a single line break, with no
deduplication; when `source_2` is absent, `source_1` alone is embedded in
the same position (same surrounding prompt text). -/
theorem prompt_with_sources_embeds_both (gen_a gen_b q s1 s2 : String) :
    ∃ pre post,
      PairwiseTextQuality._prompt_with_sources gen_a gen_b q s1 (some s2) =
        pre ++ (s1 ++ "\n" ++ s2) ++ post ∧
      PairwiseTextQuality._prompt_with_sources gen_a gen_b q s1 none =
        pre ++ s1 ++ post := by
  refine ⟨"\n        You are comparing the quality of two responses to a user" ++
    apos ++
    "s query. Source\n        text that is supposedly relevant to the user" ++
    apos ++
    "s query is also provided\n        to you as a reference (the source text may contain some duplication).\n        Here is the data:\n        [BEGIN DATA]\n        ************\n        [User Query]: " ++
    q ++
    "\n        ************\n        [Source]: ",
    "\n        ************\n        [Response A]: " ++
    gen_a ++
    "\n        ************\n        [Response B]: " ++
    gen_b ++
    "\n        ************\n        [END DATA]\n\n        Determine which of the responses is a better response to the user" ++
    apos ++
    "s\n        query. Consider factors such as helpfulness, correctness, and relevance\n        in your assessment, using the provided Source as a reference. Do not\n        allow the order in which the responses were presented to influence your\n        assessment. Do not allow the length of the responses to influence your\n        assessment. The available assessments are:\n        `Response A` - Response A is a better response.\n        `Response B` - Response B is a better response.\n        `Tie` - The two responses are roughly equal in quality.\n\n        Take a deep breath and work on this problem step-by-step.\n        ",
    ?_, ?_⟩ <;>
  simp [PairwiseTextQuality._prompt_with_sources, strAppendAssoc]

/-- Claim C3: context-variant selection is a batch-level decision with
precedence source > reference > plain: whenever at least one source sequence
is non-null every rendered prompt uses the source-grounded template (even if
a reference sequence is also supplied); otherwise with a reference sequence
every rendered prompt uses the reference template; otherwise every rendered
prompt uses the plain template. -/
theorem pairwise_variant_selection_precedence (a b p : List String)
    (sa sb ref : Option (List String)) :
    ((sa ≠ none ∨ sb ≠ none) →
      ∀ pr ∈ PairwiseTextQuality.renderedPrompts a b p sa sb ref,
        ∃ x y q s t,
          pr = PairwiseTextQuality._prompt_with_sources x y q s t) ∧
    (sa = none → sb = none → ref ≠ none →
      ∀ pr ∈ PairwiseTextQuality.renderedPrompts a b p sa sb ref,
        ∃ x y q r,
          pr = PairwiseTextQuality._prompt_with_reference x y q r) ∧
    (sa = none → sb = none → ref = none →
      ∀ pr ∈ PairwiseTextQuality.renderedPrompts a b p sa sb ref,
        ∃ x y q, pr = PairwiseTextQuality._prompt x y q) := by
  refine ⟨?_, ?_, ?_⟩
  · intro hne pr hpr
    rcases sa with _ | la <;> rcases sb with _ | lb
    · rcases hne with h | h <;> simp at h
    · simp only [PairwiseTextQuality.renderedPrompts] at hpr
      rcases List.mem_map.mp hpr with ⟨t, _, ht⟩
      exact ⟨t.1, t.2.1, t.2.2.1, t.2.2.2, none, ht.symm⟩
    · simp only [PairwiseTextQuality.renderedPrompts] at hpr
      rcases List.mem_map.mp hpr with ⟨t, _, ht⟩
      exact ⟨t.1, t.2.1, t.2.2.1, t.2.2.2, none, ht.symm⟩
    · simp only [PairwiseTextQuality.renderedPrompts] at hpr
      rcases List.mem_map.mp hpr with ⟨t, _, ht⟩
      exact ⟨t.1, t.2.1, t.2.2.1, t.2.2.2.1, some t.2.2.2.2, ht.symm⟩
  · intro hsa hsb href pr hpr
    subst hsa; subst hsb
    rcases ref with _ | lr
    · exact absurd rfl href
    · simp only [PairwiseTextQuality.renderedPrompts] at hpr
      rcases List.mem_map.mp hpr with ⟨t, _, ht⟩
      exact ⟨t.1, t.2.1, t.2.2.1, t.2.2.2, ht.symm⟩
  · intro hsa hsb href pr hpr
    subst hsa; subst hsb; subst href
    simp only [PairwiseTextQuality.renderedPrompts] at hpr
    rcases List.mem_map.mp hpr with ⟨t, _, ht⟩
    exact ⟨t.1, t.2.1, t.2.2, ht.symm⟩

theorem pairwise_variant_selection_precedence_witness :
    ∃ x y q s t,
      PairwiseTextQuality._prompt_with_sources "A1" "B1" "Q1" "S1" none =
        PairwiseTextQuality._prompt_with_sources x y q s t :=
  (pairwise_variant_selection_precedence ["A1"] ["B1"] ["Q1"] (some ["S1"])
      none (some ["R1"])).1 (Or.inl (by simp))
    (PairwiseTextQuality._prompt_with_sources "A1" "B1" "Q1" "S1" none)
    (by simp [PairwiseTextQuality.renderedPrompts, zip4])

/-- Claim C2: for every successful batch the orchestrator emits the complete,
positionally-aligned result set of score/explanation pairs (each result is
exactly the scored verdict of its item's rendered prompt); in particular the
single-item example input with a judge that returns `Response A` yields the
one-element result with score 0.0 and the judge's free-text explanation. -/
theorem pairwise_comparison_complete_result_set :
    (∀ (judge : String → JudgeVerdict) (a b p : List String)
        (sa sb ref : Option (List String)) (mt : String)
        (res : List (ℚ × String)),
        PairwiseTextQuality.pairwise_comparison judge a b p sa sb ref mt =
          .ok res →
        List.Forall₂
          (fun pr r =>
            PairwiseTextQuality.get_score
                PairwiseTextQuality.pairwise_comparison_assessment_to_score
                (judge pr) = .ok r)
          (PairwiseTextQuality.renderedPrompts a b p sa sb ref) res) ∧
    (∀ explanation : String,
      PairwiseTextQuality.pairwise_comparison
          (fun _ => { label := "Response A", raw_explanation := explanation })
          ["The sky is blue."] ["I hate you."] ["Describe something."]
          none none none "openai" =
        .ok [(0, explanation)]) := by
  constructor
  · intro judge a b p sa sb ref mt res h
    by_cases hmt : mt = "openai" ∨ mt = "azure_openai"
    · simp only [PairwiseTextQuality.pairwise_comparison] at h
      rw [if_pos hmt] at h
      exact runJudged_forall2 _ _ _ h
    · simp only [PairwiseTextQuality.pairwise_comparison] at h
      rw [if_neg hmt] at h
      simp at h
  · intro explanation
    rfl

theorem pairwise_comparison_complete_result_set_witness :
    List.Forall₂
      (fun pr r =>
        PairwiseTextQuality.get_score
            PairwiseTextQuality.pairwise_comparison_assessment_to_score
            ((fun _ : String => (⟨"Tie", "even"⟩ : JudgeVerdict)) pr) =
          .ok r)
      (PairwiseTextQuality.renderedPrompts ["x"] ["y"] ["q"] none none none)
      [(1/2, "even")] :=
  pairwise_comparison_complete_result_set.1 (fun _ => ⟨"Tie", "even"⟩)
    ["x"] ["y"] ["q"] none none none "openai" [(1/2, "even")] (by rfl)

/-- Claim C5: for every batch of N aligned items where the judge always
returns `Tie`, the orchestrator produces exactly N results, each with score
0.5 and the judge's explanation, in the same order as the rendered items. -/
theorem tie_judge_yields_all_half_scores (judgeExpl : String → String)
    (a b p : List String) (n : ℕ) (ha : a.length = n) (hb : b.length = n)
    (hp : p.length = n) :
    PairwiseTextQuality.pairwise_comparison
        (fun pr => { label := "Tie", raw_explanation := judgeExpl pr })
        a b p none none none "openai" =
      .ok ((PairwiseTextQuality.renderedPrompts a b p none none none).map
        (fun pr => (1/2, judgeExpl pr))) ∧
    (PairwiseTextQuality.renderedPrompts a b p none none none).length =
      n := by
  constructor
  · unfold PairwiseTextQuality.pairwise_comparison
    rw [if_pos (Or.inl rfl)]
    apply runJudged_map_of_ok
    intro pr _
    apply get_score_ok
    simp [PairwiseTextQuality.pairwise_comparison_assessment_to_score,
      List.lookup]
  · simp only [PairwiseTextQuality.renderedPrompts, List.length_map]
    rw [zip3_length]
    omega

theorem tie_judge_yields_all_half_scores_witness :
    PairwiseTextQuality.pairwise_comparison (fun _ => ⟨"Tie", "w"⟩)
        ["a1", "a2"] ["b1", "b2"] ["q1", "q2"] none none none "openai" =
      .ok ((PairwiseTextQuality.renderedPrompts ["a1", "a2"] ["b1", "b2"]
          ["q1", "q2"] none none none).map (fun _pr => (1/2, "w"))) ∧
    (PairwiseTextQuality.renderedPrompts ["a1", "a2"] ["b1", "b2"]
        ["q1", "q2"] none none none).length = 2 :=
  tie_judge_yields_all_half_scores (fun _ => "w") ["a1", "a2"] ["b1", "b2"]
    ["q1", "q2"] 2 rfl rfl rfl

/-- Claim C4: if the judge returns a label outside the active assessment
schema for any item of a batch, the batch fails with the unrecognized
assessment error: no default or neutral score is substituted and no result
set is produced (the scores of earlier items are discarded with it). Stated
for the pairwise orchestrator and for the OpenAI sentiment path. -/
theorem unrecognized_assessment_aborts_batch :
    (∀ (judge : String → JudgeVerdict) (a b p : List String)
        (sa sb ref : Option (List String)) (pr : String),
        pr ∈ PairwiseTextQuality.renderedPrompts a b p sa sb ref →
        List.lookup (judge pr).label
            PairwiseTextQuality.pairwise_comparison_assessment_to_score =
          none →
        ∃ l,
          PairwiseTextQuality.pairwise_comparison judge a b p sa sb ref
              "openai" = .error (.unrecognizedAssessment l) ∧
          List.lookup l
              PairwiseTextQuality.pairwise_comparison_assessment_to_score =
            none) ∧
    (∀ (api : ReferenceFreeTextQuality.ChatCompletionRequest → String)
        (gens : List String) (args : Option (List (String × String)))
        (r : ReferenceFreeTextQuality.ChatCompletionRequest),
        r ∈ ReferenceFreeTextQuality._sentiment_requests gens args →
        api r ≠ "Positive" → api r ≠ "Neutral" → api r ≠ "Negative" →
        ∃ l,
          ReferenceFreeTextQuality._sentiment_openai api gens args =
            .error (.unrecognizedAssessment l) ∧
          l ≠ "Positive" ∧ l ≠ "Neutral" ∧ l ≠ "Negative") := by
  constructor
  · intro judge a b p sa sb ref pr hpr hlook
    have herr : PairwiseTextQuality.get_score
        PairwiseTextQuality.pairwise_comparison_assessment_to_score
        (judge pr) = .error (.unrecognizedAssessment (judge pr).label) := by
      simp [PairwiseTextQuality.get_score, hlook]
    obtain ⟨e, hrun, y, hy, hgy⟩ :=
      runJudged_error_of_mem
        (fun s => PairwiseTextQuality.get_score
          PairwiseTextQuality.pairwise_comparison_assessment_to_score
          (judge s)) pr _ _ hpr herr
    obtain ⟨hl, hnone⟩ := get_score_error_shape _ _ _ hgy
    refine ⟨(judge y).label, ?_, hnone⟩
    unfold PairwiseTextQuality.pairwise_comparison
    rw [if_pos (Or.inl rfl), hrun, hl]
  · intro api gens args r hr h1 h2 h3
    have herr : ReferenceFreeTextQuality._sentiment_assessment_to_score
        (api r) = .error (.unrecognizedAssessment (api r)) := by
      simp [ReferenceFreeTextQuality._sentiment_assessment_to_score, h1, h2,
        h3]
    obtain ⟨e, hrun, y, hy, hgy⟩ :=
      runJudged_error_of_mem
        (fun s => ReferenceFreeTextQuality._sentiment_assessment_to_score
          (api s)) r _ _ hr herr
    obtain ⟨hl, g1, g2, g3⟩ := sentiment_score_error_shape _ _ hgy
    refine ⟨api y, ?_, g1, g2, g3⟩
    simp only [ReferenceFreeTextQuality._sentiment_openai]
    rw [hrun, hl]

theorem unrecognized_assessment_aborts_batch_witness :
    ∃ l,
      PairwiseTextQuality.pairwise_comparison (fun _ => ⟨"Banana", "expl"⟩)
          ["a"] ["b"] ["q"] none none none "openai" =
        .error (.unrecognizedAssessment l) ∧
      List.lookup l
          PairwiseTextQuality.pairwise_comparison_assessment_to_score =
        none :=
  unrecognized_assessment_aborts_batch.1 (fun _ => ⟨"Banana", "expl"⟩)
    ["a"] ["b"] ["q"] none none none
    (PairwiseTextQuality._prompt "a" "b" "q")
    (by simp [PairwiseTextQuality.renderedPrompts, zip3])
    (by simp [PairwiseTextQuality.pairwise_comparison_assessment_to_score,
      List.lookup])

/-- Claim C7: selecting an unsupported provider variant fails immediately
with a configuration error, for any judge/classifier/remote collaborator
whatsoever — so no remote call is attempted and there are no other side
effects. Stated for `pairwise_comparison` (supported: openai, azure_openai)
and `sentiment` (supported: local, openai). -/
theorem unsupported_model_type_fails_fast (mt : String) :
    (mt ≠ "openai" → mt ≠ "azure_openai" →
      ∀ (judge : String → JudgeVerdict) (a b p : List String)
        (sa sb ref : Option (List String)),
        PairwiseTextQuality.pairwise_comparison judge a b p sa sb ref mt =
          .error (.configurationError
            "Unsupported model type. The supported ones are [\"openai\", \"azure_openai\"]")) ∧
    (mt ≠ "local" → mt ≠ "openai" →
      ∀ (classifier : List String → List (ℚ × ℚ × ℚ))
        (api : ReferenceFreeTextQuality.ChatCompletionRequest → String)
        (gens : List String) (prompts : Option (List String))
        (args : Option (List (String × String))),
        ReferenceFreeTextQuality.sentiment classifier api gens prompts mt
            args =
          .error (.configurationError
            "Unsupported model type. The supported ones are [\"local\", \"openai\"]")) := by
  constructor
  · intro h1 h2 judge a b p sa sb ref
    unfold PairwiseTextQuality.pairwise_comparison
    rw [if_neg (by simp [h1, h2])]
  · intro h1 h2 classifier api gens prompts args
    unfold ReferenceFreeTextQuality.sentiment
    rw [if_neg (by simp [h1, h2])]

theorem unsupported_model_type_fails_fast_witness :
    PairwiseTextQuality.pairwise_comparison (fun _ => ⟨"Tie", "e"⟩)
        ["a"] ["b"] ["q"] none none none "anthropic" =
      .error (.configurationError
        "Unsupported model type. The supported ones are [\"openai\", \"azure_openai\"]") :=
  (unsupported_model_type_fails_fast "anthropic").1 (by decide) (by decide)
    (fun _ => ⟨"Tie", "e"⟩) ["a"] ["b"] ["q"] none none none

/-- Claim C8: the local sentiment path scores each item as the fixed
combination neutral/2 + positive of the classifier's per-class probability
row `[negative, neutral, positive]`; consequently, for probability rows
(nonnegative entries summing to 1) every returned local sentiment score lies
in [0, 1]. -/
theorem sentiment_local_score_formula_bounded
    (classifier : List String → List (ℚ × ℚ × ℚ)) (gens : List String)
    (hprob : ∀ row ∈ classifier gens,
      0 ≤ row.1 ∧ 0 ≤ row.2.1 ∧ 0 ≤ row.2.2 ∧
        row.1 + row.2.1 + row.2.2 = 1) :
    ReferenceFreeTextQuality._sentiment_local classifier gens =
      (classifier gens).map (fun row => row.2.1 / 2 + row.2.2) ∧
    ∀ s ∈ ReferenceFreeTextQuality._sentiment_local classifier gens,
      0 ≤ s ∧ s ≤ 1 := by
  refine ⟨rfl, ?_⟩
  intro s hs
  simp only [ReferenceFreeTextQuality._sentiment_local, List.mem_map] at hs
  obtain ⟨row, hrow, rfl⟩ := hs
  obtain ⟨hn, hu, hp, hsum⟩ := hprob row hrow
  constructor
  · linarith
  · linarith

theorem sentiment_local_score_formula_bounded_witness :
    0 ≤ (1:ℚ)/4 / 2 + 1/4 ∧ (1:ℚ)/4 / 2 + 1/4 ≤ 1 :=
  (sentiment_local_score_formula_bounded (fun _ => [(1/2, 1/4, 1/4)])
      ["hello"]
      (by intro row hrow; simp at hrow; rw [hrow]; norm_num)).2
    ((1:ℚ)/4 / 2 + 1/4)
    (by simp [ReferenceFreeTextQuality._sentiment_local])

/-- Claim C9: when the pass-through invocation parameters (`openai_args`)
are absent, every remote sentiment request carries the fixed default model
identity gpt-3.5-turbo and no extra keyword arguments; when present, the
mapping is forwarded verbatim as the extra keyword arguments and no explicit
default model argument is passed. -/
theorem openai_args_forwarded_verbatim_or_default :
    (∀ (gens : List String)
        (r : ReferenceFreeTextQuality.ChatCompletionRequest),
        r ∈ ReferenceFreeTextQuality._sentiment_requests gens none →
        r.model_kwarg = some "gpt-3.5-turbo" ∧ r.extra_kwargs = []) ∧
    (∀ (gens : List String) (args : List (String × String))
        (r : ReferenceFreeTextQuality.ChatCompletionRequest),
        r ∈ ReferenceFreeTextQuality._sentiment_requests gens (some args) →
        r.model_kwarg = none ∧ r.extra_kwargs = args) := by
  constructor
  · intro gens r hr
    simp only [ReferenceFreeTextQuality._sentiment_requests,
      List.mem_map] at hr
    obtain ⟨gen, _, rfl⟩ := hr
    exact ⟨rfl, rfl⟩
  · intro gens args r hr
    simp only [ReferenceFreeTextQuality._sentiment_requests,
      List.mem_map] at hr
    obtain ⟨gen, _, rfl⟩ := hr
    exact ⟨rfl, rfl⟩

theorem openai_args_forwarded_verbatim_or_default_witness :
    (ReferenceFreeTextQuality.sentimentRequest "g" none).model_kwarg =
      some "gpt-3.5-turbo" ∧
    (ReferenceFreeTextQuality.sentimentRequest "g" none).extra_kwargs =
      [] :=
  openai_args_forwarded_verbatim_or_default.1 ["g"]
    (ReferenceFreeTextQuality.sentimentRequest "g" none)
    (by simp [ReferenceFreeTextQuality._sentiment_requests])

/-- Claim C10: unequal input sequence lengths raise no length-mismatch
error: with a judge whose labels are always recognized, the batch succeeds
and the per-item loop silently processes exactly as many items as the
shortest supplied sequence (zip truncation), even though the progress-bar
total is the length of `prompts` (second conjunct: a batch whose shortest
sequence has 1 item yields exactly 1 result while the progress total is
2). -/
theorem pairwise_zip_truncation :
    (∀ (judge : String → JudgeVerdict) (a b p : List String),
        (∀ s, List.lookup (judge s).label
            PairwiseTextQuality.pairwise_comparison_assessment_to_score ≠
          none) →
        ∃ res,
          PairwiseTextQuality.pairwise_comparison judge a b p none none
              none "openai" = .ok res ∧
          res.length = min a.length (min b.length p.length)) ∧
    (∀ e : String,
      PairwiseTextQuality.pairwise_comparison (fun _ => ⟨"Tie", e⟩)
          ["a1"] ["b1", "b2", "b3"] ["q1", "q2"] none none none "openai" =
        .ok [(1/2, e)] ∧
      PairwiseTextQuality.progress_total ["q1", "q2"] = 2) := by
  constructor
  · intro judge a b p hjudge
    refine ⟨(PairwiseTextQuality.renderedPrompts a b p none none none).map
      (fun pr => ((List.lookup (judge pr).label
          PairwiseTextQuality.pairwise_comparison_assessment_to_score).getD 0,
        (judge pr).raw_explanation)), ?_, ?_⟩
    · unfold PairwiseTextQuality.pairwise_comparison
      rw [if_pos (Or.inl rfl)]
      apply runJudged_map_of_ok
      intro pr _
      cases hl : List.lookup (judge pr).label
          PairwiseTextQuality.pairwise_comparison_assessment_to_score with
      | none => exact absurd hl (hjudge pr)
      | some v =>
        rw [get_score_ok _ _ v hl]
        simp
    · simp only [List.length_map, PairwiseTextQuality.renderedPrompts]
      rw [zip3_length]
  · intro e
    exact ⟨rfl, rfl⟩

theorem pairwise_zip_truncation_witness :
    ∃ res,
      PairwiseTextQuality.pairwise_comparison (fun _ => ⟨"Tie", "w"⟩)
          ["x"] ["y1", "y2"] ["q"] none none none "openai" = .ok res ∧
      res.length = min 1 (min 2 1) :=
  pairwise_zip_truncation.1 (fun _ => ⟨"Tie", "w"⟩) ["x"] ["y1", "y2"] ["q"]
    (by
      intro s
      simp [PairwiseTextQuality.pairwise_comparison_assessment_to_score,
        List.lookup])
